import Mathlib

/-!
Verification of the stewart-platform repository's control core against its
design specification.

The Rust source (src/controller.rs and src/main.rs) is shallowly embedded
here: 64-bit floats are modelled as rationals (ℚ), mutable `&mut self`
methods become pure functions returning the updated state, and the
fieldbus-facing parts of the main loop are modelled with their externally
supplied data (sensor sample, lifecycle-transition outcomes) as explicit
parameters.
-/

namespace StewartPlatform

/-- Rust `f64::clamp(lo, hi)` on the rational model: values below `lo` map
to `lo`, values above `hi` map to `hi`, everything else is unchanged. -/
def rustClamp (x lo hi : ℚ) : ℚ :=
  if x < lo then lo else if x > hi then hi else x

/-- The PI servo controller state from src/controller.rs: proportional gain,
integral gain, target setpoint and the running error accumulator. -/
@[ext]
structure CylinderPositionController where
  k_p : ℚ
  k_i : ℚ
  setpoint : ℚ
  error_accumulator : ℚ
deriving DecidableEq

/-- The `ControlGains` enum from src/controller.rs: a proportional-only
controller carries one gain, a proportional-integral controller two. -/
inductive ControlGains where
  | P (k_p : ℚ)
  | PI (k_p : ℚ) (k_i : ℚ)
deriving DecidableEq

/-- `CylinderPositionController::new`: a proportional-only choice of gains
sets `k_i` to zero; the accumulator starts at zero; the setpoint is stored
as given (no clamping at construction). -/
def CylinderPositionController.new (gains : ControlGains) (setpoint : ℚ) :
    CylinderPositionController :=
  match gains with
  | ControlGains.P k_p =>
      { k_p := k_p, k_i := 0, setpoint := setpoint, error_accumulator := 0 }
  | ControlGains.PI k_p k_i =>
      { k_p := k_p, k_i := k_i, setpoint := setpoint, error_accumulator := 0 }

/-- `CylinderPositionController::new_setpoint`: clamps the argument into
[0, 1], stores it as the setpoint and resets the error accumulator. -/
def CylinderPositionController.new_setpoint (c : CylinderPositionController)
    (setpoint : ℚ) : CylinderPositionController :=
  { c with setpoint := rustClamp setpoint 0 1, error_accumulator := 0 }

/-- `CylinderPositionController::control_signal`: computes the tracking
error, adds it to the accumulator, and returns the PI control law output
together with the updated controller state. -/
def CylinderPositionController.control_signal (c : CylinderPositionController)
    (measurement_signal : ℚ) : ℚ × CylinderPositionController :=
  let error : ℚ := c.setpoint - measurement_signal
  let acc : ℚ := c.error_accumulator + error
  (c.k_p * error + c.k_i * acc, { c with error_accumulator := acc })

end StewartPlatform

namespace StewartPlatform

open CylinderPositionController

/-- The actuation write in src/main.rs: the first output byte is `0b10`
when the control signal exceeds the deadband half-width, `0b01` when it is
below its negation, and `0b00` otherwise. -/
def actuate (control_signal deadband_half_width : ℚ) : ℕ :=
  if control_signal > deadband_half_width then 2
  else if control_signal < -deadband_half_width then 1
  else 0

/-- The fixed deadband half-width used by the control loop in src/main.rs. -/
def deadband_half_width : ℚ := 1 / 100

end StewartPlatform

namespace StewartPlatform

/-- C1: `control_signal(m)` computes `error = setpoint - m`, adds the error
to the accumulator unconditionally, and returns
`k_p * error + k_i * (updated accumulator)` with no clamping of the
output. -/
theorem control_signal_spec (c : CylinderPositionController) (m : ℚ) :
    ((c.control_signal m).2).error_accumulator
        = c.error_accumulator + (c.setpoint - m) ∧
    (c.control_signal m).1
        = c.k_p * (c.setpoint - m)
          + c.k_i * ((c.control_signal m).2).error_accumulator := by
  constructor <;> rfl

/-- C2: the actuation policy yields extend (`0b10`) exactly when the signal
exceeds the deadband half-width, retract (`0b01`) exactly when it is below
the negated half-width, and neutral (`0b00`) otherwise; the boundary is
exclusive, as the four concrete sample points show. -/
theorem actuate_spec (s d : ℚ) (hd : 0 ≤ d) :
    (actuate s d = 2 ↔ s > d) ∧
    (actuate s d = 1 ↔ s < -d) ∧
    (actuate s d = 0 ↔ (¬ s > d ∧ ¬ s < -d)) ∧
    actuate (1/100) (1/100) = 0 ∧
    actuate (2/100) (1/100) = 2 ∧
    actuate (-(2/100)) (1/100) = 1 ∧
    actuate 0 (1/100) = 0 := by
  unfold actuate
  refine ⟨?_, ?_, ?_, by norm_num, by norm_num, by norm_num, by norm_num⟩
  · split_ifs with h1 h2 <;> simp_all
  · split_ifs with h1 h2 <;> simp_all
    linarith
  · split_ifs with h1 h2 <;> simp_all

/-- Witness for C2 at concrete inputs `s = 5`, `d = 1/100`. -/
theorem actuate_spec_witness :
    (actuate 5 (1/100) = 2 ↔ (5 : ℚ) > 1/100) ∧
    (actuate 5 (1/100) = 1 ↔ (5 : ℚ) < -(1/100)) ∧
    (actuate 5 (1/100) = 0 ↔ (¬ (5 : ℚ) > 1/100 ∧ ¬ (5 : ℚ) < -(1/100))) ∧
    actuate (1/100) (1/100) = 0 ∧
    actuate (2/100) (1/100) = 2 ∧
    actuate (-(2/100)) (1/100) = 1 ∧
    actuate 0 (1/100) = 0 :=
  actuate_spec 5 (1/100) (by norm_num)

/-- C3: after `new_setpoint x`, the setpoint field equals `x` clamped into
[0, 1] (even for arguments outside that range) and the error accumulator is
zero. -/
theorem new_setpoint_spec (c : CylinderPositionController) (x : ℚ) :
    (c.new_setpoint x).setpoint = max 0 (min 1 x) ∧
    (c.new_setpoint x).error_accumulator = 0 := by
  refine ⟨?_, rfl⟩
  show rustClamp x 0 1 = max 0 (min 1 x)
  unfold rustClamp
  split_ifs with h1 h2
  · rw [min_eq_right (h1.le.trans zero_le_one), max_eq_left h1.le]
  · rw [min_eq_left h2.le, max_eq_right zero_le_one]
  · rw [min_eq_right (not_lt.mp h2), max_eq_right (not_lt.mp h1)]

/-- One mutating call on a controller: either a setpoint change or a
control-signal computation. -/
inductive ControllerOp where
  | set (x : ℚ)
  | sig (m : ℚ)
deriving DecidableEq

/-- Apply a single controller operation to a controller state. -/
def applyOp (c : CylinderPositionController) : ControllerOp →
    CylinderPositionController
  | ControllerOp.set x => c.new_setpoint x
  | ControllerOp.sig m => (c.control_signal m).2

/-- Apply a sequence of controller operations left to right. -/
def applyOps (c : CylinderPositionController) (ops : List ControllerOp) :
    CylinderPositionController :=
  ops.foldl applyOp c

/-- Feed a list of measurements through a controller, collecting the control
signals it returns. -/
def runSignals (c : CylinderPositionController) : List ℚ → List ℚ
  | [] => []
  | m :: ms => (c.control_signal m).1 :: runSignals (c.control_signal m).2 ms

/-- The gains are never mutated by any controller operation. -/
theorem applyOp_gains (c : CylinderPositionController) (op : ControllerOp) :
    (applyOp c op).k_p = c.k_p ∧ (applyOp c op).k_i = c.k_i := by
  cases op <;> exact ⟨rfl, rfl⟩

/-- The gains are never mutated by any sequence of controller operations. -/
theorem applyOps_gains (ops : List ControllerOp)
    (c : CylinderPositionController) :
    (applyOps c ops).k_p = c.k_p ∧ (applyOps c ops).k_i = c.k_i := by
  induction ops generalizing c with
  | nil => exact ⟨rfl, rfl⟩
  | cons op rest ih =>
      have h := applyOp_gains c op
      have h2 := ih (applyOp c op)
      exact ⟨h2.1.trans h.1, h2.2.trans h.2⟩

/-- A single operation keeps the setpoint inside [0, 1] once it is there. -/
theorem applyOp_setpoint_mem (c : CylinderPositionController)
    (op : ControllerOp) (h0 : 0 ≤ c.setpoint) (h1 : c.setpoint ≤ 1) :
    0 ≤ (applyOp c op).setpoint ∧ (applyOp c op).setpoint ≤ 1 := by
  cases op with
  | set x =>
      show 0 ≤ rustClamp x 0 1 ∧ rustClamp x 0 1 ≤ 1
      unfold rustClamp
      split_ifs with hx1 hx2
      · exact ⟨le_refl 0, zero_le_one⟩
      · exact ⟨zero_le_one, le_refl 1⟩
      · exact ⟨not_lt.mp hx1, not_lt.mp hx2⟩
  | sig m => exact ⟨h0, h1⟩

/-- C4 counterexample: the constructor stores the setpoint as given without
clamping, so `new(P(1), 2)` already has a setpoint outside [0, 1]. -/
theorem new_setpoint_unclamped_counterexample :
    (CylinderPositionController.new (ControlGains.P 1) 2).setpoint = 2 ∧
    ¬ (CylinderPositionController.new (ControlGains.P 1) 2).setpoint ≤ 1 := by
  constructor
  · rfl
  · show ¬ (2 : ℚ) ≤ 1
    norm_num

/-- C4 (amended): provided the initial setpoint handed to `new` lies in
[0, 1], every controller state reachable by any interleaving of
`new_setpoint` and `control_signal` calls has its setpoint in [0, 1]. -/
theorem setpoint_invariant (gains : ControlGains) (s0 : ℚ)
    (ops : List ControllerOp) (h0 : 0 ≤ s0) (h1 : s0 ≤ 1) :
    0 ≤ (applyOps (CylinderPositionController.new gains s0) ops).setpoint ∧
    (applyOps (CylinderPositionController.new gains s0) ops).setpoint ≤ 1 := by
  have hstart : (CylinderPositionController.new gains s0).setpoint = s0 := by
    cases gains <;> rfl
  have key : ∀ (l : List ControllerOp) (c : CylinderPositionController),
      0 ≤ c.setpoint → c.setpoint ≤ 1 →
      0 ≤ (applyOps c l).setpoint ∧ (applyOps c l).setpoint ≤ 1 := by
    intro l
    induction l with
    | nil => intro c hc0 hc1; exact ⟨hc0, hc1⟩
    | cons op rest ih =>
        intro c hc0 hc1
        have h := applyOp_setpoint_mem c op hc0 hc1
        exact ih (applyOp c op) h.1 h.2
  exact key ops _ (by rw [hstart]; exact h0) (by rw [hstart]; exact h1)

/-- Witness for C4 (amended) at gains `P(1)`, initial setpoint `1/2`, and the
operation sequence `new_setpoint(2)` then `control_signal(3)`. -/
theorem setpoint_invariant_witness :
    0 ≤ (applyOps (CylinderPositionController.new (ControlGains.P 1) (1/2))
          [ControllerOp.set 2, ControllerOp.sig 3]).setpoint ∧
    (applyOps (CylinderPositionController.new (ControlGains.P 1) (1/2))
          [ControllerOp.set 2, ControllerOp.sig 3]).setpoint ≤ 1 :=
  setpoint_invariant (ControlGains.P 1) (1/2)
    [ControllerOp.set 2, ControllerOp.sig 3] (by norm_num) (by norm_num)

/-- C6: a freshly constructed controller at setpoint `t` and a controller
with the same gains that actually reaches setpoint `t` via `new_setpoint t`
after arbitrary prior use produce identical output sequences on every
subsequent identical input sequence. -/
theorem fresh_vs_reset_equivalence (gains : ControlGains) (s0 t : ℚ)
    (ops : List ControllerOp) (inputs : List ℚ)
    (hreach : ((applyOps (CylinderPositionController.new gains s0)
        ops).new_setpoint t).setpoint = t) :
    runSignals (CylinderPositionController.new gains t) inputs =
    runSignals ((applyOps (CylinderPositionController.new gains s0)
        ops).new_setpoint t) inputs := by
  have hgains := applyOps_gains ops (CylinderPositionController.new gains s0)
  have hstate : CylinderPositionController.new gains t =
      (applyOps (CylinderPositionController.new gains s0)
        ops).new_setpoint t := by
    have hp : (CylinderPositionController.new gains s0).k_p =
        (CylinderPositionController.new gains t).k_p := by
      cases gains <;> rfl
    have hi : (CylinderPositionController.new gains s0).k_i =
        (CylinderPositionController.new gains t).k_i := by
      cases gains <;> rfl
    have hnewacc : (CylinderPositionController.new gains t).error_accumulator
        = 0 := by
      cases gains <;> rfl
    cases gains <;>
      exact CylinderPositionController.ext
        (hgains.1.trans hp).symm (hgains.2.trans hi).symm hreach.symm rfl
  rw [hstate]

/-- Witness for C6 at gains `P(1)`, prior history `control_signal(1/2)` from
initial setpoint `0`, reset target `1/2`, and subsequent input `1/4`. -/
theorem fresh_vs_reset_equivalence_witness :
    runSignals (CylinderPositionController.new (ControlGains.P 1) (1/2))
        [1/4] =
    runSignals ((applyOps (CylinderPositionController.new (ControlGains.P 1) 0)
        [ControllerOp.sig (1/2)]).new_setpoint (1/2)) [1/4] :=
  fresh_vs_reset_equivalence (ControlGains.P 1) 0 (1/2)
    [ControllerOp.sig (1/2)] [1/4] (by norm_num [applyOps, applyOp,
      CylinderPositionController.new, CylinderPositionController.new_setpoint,
      CylinderPositionController.control_signal, rustClamp])

/-- C10: `control_signal` mutates only the error accumulator, and
`new_setpoint` mutates only the setpoint and the error accumulator; the
gains are untouched by both. -/
theorem frame_conditions (c : CylinderPositionController) (m x : ℚ) :
    ((c.control_signal m).2).k_p = c.k_p ∧
    ((c.control_signal m).2).k_i = c.k_i ∧
    ((c.control_signal m).2).setpoint = c.setpoint ∧
    (c.new_setpoint x).k_p = c.k_p ∧
    (c.new_setpoint x).k_i = c.k_i :=
  ⟨rfl, rfl, rfl, rfl, rfl⟩

/-- The measurement-to-actuation portion of one control-loop cycle in
src/main.rs: when a decoded sensor sample is present the controller is
invoked on it, otherwise the control signal for the cycle is `0.0` and the
controller is not invoked; the actuation byte is then computed from that
signal and the deadband. Returns the controller state after the cycle and
the byte written to the actuator output. -/
def cycleStep (c : CylinderPositionController) (sample : Option ℚ)
    (d : ℚ) : CylinderPositionController × ℕ :=
  let signalled : ℚ × CylinderPositionController :=
    match sample with
    | some m => c.control_signal m
    | none => (0, c)
  (signalled.2, actuate signalled.1 d)

/-- C5: on a cycle whose sensor sample is absent or undecodable, the
control signal is exactly 0, the actuation byte equals
`actuate 0 deadband_half_width` which is neutral (`0b00`), and the
controller state — in particular its accumulator — is unchanged. -/
theorem missing_sample_neutral (c : CylinderPositionController) :
    cycleStep c none deadband_half_width =
      (c, actuate 0 deadband_half_width) ∧
    actuate 0 deadband_half_width = 0 ∧
    (cycleStep c none deadband_half_width).1.error_accumulator
      = c.error_accumulator := by
  refine ⟨rfl, ?_, rfl⟩
  show actuate 0 (1/100) = 0
  norm_num [actuate]

/-- The `SetpointUpdate` single-slot mailbox from src/main.rs: a ready flag
and the stored setpoint value. -/
structure SetpointUpdate where
  ready : Bool
  setpoint : ℚ
deriving DecidableEq

/-- The writer side in `spawn_interactive_tty_channel`: overwrite the whole
slot with the new value and mark it ready. -/
def writeChannel (v : ℚ) (_s : SetpointUpdate) : SetpointUpdate :=
  { ready := true, setpoint := v }

/-- The reader side in the control loop, taken as one atomic step: if the
slot is ready, return the stored value and clear the ready flag; otherwise
return nothing and leave the slot alone. -/
def takeIfReady (s : SetpointUpdate) : Option ℚ × SetpointUpdate :=
  if s.ready then (some s.setpoint, { s with ready := false })
  else (none, s)

/-- C7: in any sequential history the channel is a last-write-wins
single-slot mailbox: a write followed by a take returns the written value
and leaves the slot not-ready; a take with no unconsumed write returns
nothing and changes nothing; two writes before a take leave only the second
value retrievable. -/
theorem channel_mailbox_spec (s : SetpointUpdate) (v w : ℚ)
    (hnot : s.ready = false) :
    takeIfReady (writeChannel v s) =
      (some v, { ready := false, setpoint := v }) ∧
    takeIfReady s = (none, s) ∧
    writeChannel w (writeChannel v s) = writeChannel w s ∧
    takeIfReady (writeChannel w (writeChannel v s)) =
      (some w, { ready := false, setpoint := w }) := by
  refine ⟨rfl, ?_, rfl, rfl⟩
  unfold takeIfReady
  rw [hnot]
  simp

/-- Witness for C7 with the slot initially `{ready := false, setpoint := 0}`
and writes of `1` then `2`. -/
theorem channel_mailbox_spec_witness :
    takeIfReady (writeChannel 1 { ready := false, setpoint := 0 }) =
      (some 1, { ready := false, setpoint := 1 }) ∧
    takeIfReady { ready := false, setpoint := (0 : ℚ) } =
      (none, { ready := false, setpoint := 0 }) ∧
    writeChannel 2 (writeChannel 1 { ready := false, setpoint := 0 }) =
      writeChannel 2 { ready := false, setpoint := 0 } ∧
    takeIfReady (writeChannel 2
        (writeChannel 1 { ready := false, setpoint := 0 })) =
      (some 2, { ready := false, setpoint := 2 }) :=
  channel_mailbox_spec { ready := false, setpoint := 0 } 1 2 rfl

/-- One atomic access to the shared mailbox. The control-loop reader in
src/main.rs takes the mutex three separate times — once to check the ready
flag, once to read the value, once to clear the flag — while the writer
replaces the whole slot in a single critical section. Each constructor is
one critical section, so interleavings of these actions are exactly the
interleavings the mutex permits. -/
inductive ChanAction where
  | write (v : ℚ)
  | readerCheck
  | readerRead
  | readerClear
deriving DecidableEq

/-- The mailbox together with the reader's local view: the ready value it
observed at its last check, and the list of setpoints it has consumed. -/
structure LoopView where
  chan : SetpointUpdate
  observed : Bool
  consumed : List ℚ
deriving DecidableEq

/-- Semantics of a single critical section. The reader's read and clear
steps execute only when its check observed a ready slot, mirroring the
`if ... { read; clear }` shape of the loop body. -/
def chanStep (s : LoopView) : ChanAction → LoopView
  | ChanAction.write v => { s with chan := { ready := true, setpoint := v } }
  | ChanAction.readerCheck => { s with observed := s.chan.ready }
  | ChanAction.readerRead =>
      if s.observed then { s with consumed := s.consumed ++ [s.chan.setpoint] }
      else s
  | ChanAction.readerClear =>
      if s.observed then { s with chan := { s.chan with ready := false } }
      else s

/-- Run a schedule of critical sections from a starting view. -/
def chanRun (acts : List ChanAction) (s : LoopView) : LoopView :=
  acts.foldl chanStep s

/-- The loop's initial view: slot not ready, nothing observed or consumed. -/
def initialView : LoopView :=
  { chan := { ready := false, setpoint := 1 }, observed := false,
    consumed := [] }

/-- C9 counterexample: the interleaving write 1, check, read, write 2,
clear — permitted because the reader's check, read and clear are three
separate critical sections — ends with the ready flag cleared while the
value 2, whose write set the flag, was never consumed: that write is lost. -/
theorem torn_read_counterexample :
    chanRun [ChanAction.write 1, ChanAction.readerCheck,
        ChanAction.readerRead, ChanAction.write 2, ChanAction.readerClear]
        initialView =
      { chan := { ready := false, setpoint := 2 }, observed := true,
        consumed := [1] } ∧
    (2 : ℚ) ∉
      (chanRun [ChanAction.write 1, ChanAction.readerCheck,
          ChanAction.readerRead, ChanAction.write 2, ChanAction.readerClear]
          initialView).consumed := by
  refine ⟨by decide, ?_⟩
  rw [show (chanRun [ChanAction.write 1, ChanAction.readerCheck,
      ChanAction.readerRead, ChanAction.write 2, ChanAction.readerClear]
      initialView).consumed = [1] from by decide]
  decide

/-- C9 (amended): each individual access to the slot is atomic, and whenever
the reader's check, read and clear run contiguously — with no interleaved
write — they behave exactly like the atomic take of the sequential
contract; but because the three steps are separate critical sections, a
write interleaved between them can be lost, as the counterexample schedule
shows. -/
theorem uninterrupted_take_atomic (s : SetpointUpdate) (b : Bool)
    (l : List ℚ) :
    chanRun [ChanAction.readerCheck, ChanAction.readerRead,
        ChanAction.readerClear] { chan := s, observed := b, consumed := l } =
      { chan := (takeIfReady s).2, observed := s.ready,
        consumed := l ++ (takeIfReady s).1.toList } := by
  cases s with
  | mk r v =>
      cases r <;>
        simp [chanRun, chanStep, takeIfReady, List.foldl]

/-- The shutdown drain in src/main.rs: `into_safe_op`, `into_pre_op` and
`into_init` are each followed by `.expect(...)`, which aborts the process
on failure. The three booleans say whether each external transition would
succeed; the result records which transitions were attempted (1, 2, 3) and
whether the process panicked or reached its normal exit. -/
inductive DrainOutcome where
  | finished (attempted : List ℕ)
  | panicked (attempted : List ℕ)
deriving DecidableEq

/-- Model of the draining sequence: a failed `expect` panics immediately,
so later transitions are not attempted. -/
def shutdownDrain (safeOpOk preOpOk initOk : Bool) : DrainOutcome :=
  if !safeOpOk then DrainOutcome.panicked [1]
  else if !preOpOk then DrainOutcome.panicked [1, 2]
  else if !initOk then DrainOutcome.panicked [1, 2, 3]
  else DrainOutcome.finished [1, 2, 3]

/-- C8 counterexample: when the first backward transition fails, the
process panics via `expect`; the second and third transitions are never
attempted and normal process exit is not reached. -/
theorem drain_aborts_counterexample :
    shutdownDrain false true true = DrainOutcome.panicked [1] ∧
    shutdownDrain false true true ≠ DrainOutcome.finished [1, 2, 3] ∧
    2 ∉ [1] := by
  decide

/-- C8 (amended): the failure of any backward lifecycle transition aborts
the process through `expect` rather than being logged and skipped: the
subsequent transitions are not attempted and only a run in which every
transition succeeds reaches the normal exit. -/
theorem drain_abort_spec (b c : Bool) :
    shutdownDrain false b c = DrainOutcome.panicked [1] ∧
    shutdownDrain true false c = DrainOutcome.panicked [1, 2] ∧
    shutdownDrain true true false = DrainOutcome.panicked [1, 2, 3] ∧
    shutdownDrain true true true = DrainOutcome.finished [1, 2, 3] := by
  cases b <;> cases c <;> decide

end StewartPlatform
